import Mathlib

/-!
# Verification of `glsp-server-node` model submission and workflow diagram configuration

Shallow embedding of the two source files of the repository:

* `src/packages/server/src/common/features/model/model-submission-handler.ts`
  (`ModelSubmissionHandler.submitModel`, `ModelSubmissionHandler.submitModelDirectly`,
  `ModelSubmissionHandler.serializeGModel`), and
* `src/unnamed/part_000` (`WorkflowDiagramConfiguration`, `createDefaultShapeTypeHint`,
  `createDefaultEdgeTypeHint`).

Framework services (model factory, serializer, command stack, layout engine, validator)
are injected dependencies of the handler; the embedding makes them parameters of a
`SubmissionEnv` record.  Besides the returned action list, each run records the model
state after the call and a trace of framework-interaction events, so that claims about
awaits, dispatches and frame effects are statable.
-/

set_option autoImplicit false

namespace Glsp

/-- `ServerLayoutKind` from the framework's `diagram-configuration`; the source uses
`MANUAL` (workflow configuration) and `AUTOMATIC` (layout condition in
`submitModelDirectly`). -/
inductive ServerLayoutKind where
  | manual
  | automatic
  | none_kind
  deriving DecidableEq, Repr

/-- `MarkersReason` from the protocol package; the source uses `MarkersReason.LIVE`. -/
inductive MarkersReason where
  | live
  | batch
  deriving DecidableEq, Repr

/-- `DirtyStateChangeReason` is an opaque protocol string; `submitModel` and
`submitModelDirectly` only pass it through. -/
abbrev DirtyStateChangeReason := String

/-- A validation marker; the handler never inspects markers, it only forwards the list
returned by the validator into a `SetMarkersAction`. -/
structure Marker where
  description : String
  deriving DecidableEq, Repr

/-- The root element of the diagram model, restricted to the fields the handler touches:
`revision` (a `number | undefined` in TypeScript, hence an `Option Nat`) plus identifying
fields that witness frame conditions.  `GModelRootSchema`, the serialized form, carries
the same fields, so the embedding uses one structure for both. -/
structure GModelRootSchema where
  id : String
  gtype : String
  revision : Option Nat
  deriving DecidableEq, Repr

/-- The injected `ModelState`: its `root` plus a further field standing for the rest of
the model state, so that "no other field is modified" is a non-trivial statement. -/
structure ModelState where
  root : GModelRootSchema
  sourceUri : Option String
  deriving DecidableEq, Repr

/-- The client-bound actions the handler constructs (`RequestBoundsAction`,
`SetDirtyStateAction`, `SetModelAction`, `UpdateModelAction`, `SetMarkersAction`),
with exactly the payloads the source passes to the protocol `create` helpers. -/
inductive Action where
  | requestBounds (root : GModelRootSchema)
  | setDirtyState (isDirty : Bool) (reason : Option DirtyStateChangeReason)
  | setModel (root : GModelRootSchema)
  | updateModel (root : GModelRootSchema) (animate : Bool)
  | setMarkers (markers : List Marker) (reason : MarkersReason)
  deriving DecidableEq, Repr

/-- The kind of an action, forgetting its payload: the "notification-message kind". -/
inductive ActionKind where
  | requestBounds
  | setDirtyState
  | setModel
  | updateModel
  | setMarkers
  deriving DecidableEq, Repr

/-- Kind of an action. -/
def Action.kind : Action → ActionKind
  | .requestBounds _ => .requestBounds
  | .setDirtyState _ _ => .setDirtyState
  | .setModel _ => .setModel
  | .updateModel _ _ => .updateModel
  | .setMarkers _ _ => .setMarkers

/-- The framework interactions a submission run can perform.  `dispatch` is in the
vocabulary so that "the handler dispatches no action" is a statement about traces;
`awaitLayout` and `awaitValidate` are the two `await`ed suspensions. -/
inductive FrameworkEvent where
  | createModelCall
  | serializeCall
  | isDirtyQuery
  | awaitLayout
  | awaitValidate
  | dispatch (a : Action)
  deriving DecidableEq, Repr

/-- Whether an event is an `await`ed (asynchronous) suspension. -/
def FrameworkEvent.isAwait : FrameworkEvent → Bool
  | .awaitLayout => true
  | .awaitValidate => true
  | _ => false

/-- A `GModelElementConstructor`: the renderer classes referenced by the workflow
configuration (framework classes plus `ActivityNode`, `TaskNode`, `Category` from the
workflow example's `graph-extension`). -/
inductive GModelElementConstructor where
  | GGraph
  | GNode
  | GEdge
  | GPort
  | GLabel
  | GCompartment
  | GButton
  | ActivityNode
  | TaskNode
  | Category
  deriving DecidableEq, Repr

/-- An insertion-ordered string-keyed map, the embedding of a JavaScript `Map`. -/
abbrev TypeMapping := List (String × GModelElementConstructor)

/-- `Map.set`: replaces the value of an existing key in place, otherwise appends the
entry, preserving insertion order, as a JavaScript `Map` does. -/
def mapSet (m : TypeMapping) (k : String) (v : GModelElementConstructor) : TypeMapping :=
  if m.any (fun p => p.1 = k) then
    m.map (fun p => if p.1 = k then (k, v) else p)
  else
    m ++ [(k, v)]

/-- `Map.has`. -/
def mapContains (m : TypeMapping) (k : String) : Bool :=
  m.any (fun p => p.1 = k)

/-- `ShapeTypeHint` from the protocol package, with the fields the configuration sets;
`containableElementTypeIds` is optional in the protocol and absent in the default hints. -/
structure ShapeTypeHint where
  elementTypeId : String
  repositionable : Bool
  deletable : Bool
  resizable : Bool
  reparentable : Bool
  containableElementTypeIds : Option (List String)
  deriving DecidableEq, Repr

/-- `EdgeTypeHint` from the protocol package, with the fields the configuration sets. -/
structure EdgeTypeHint where
  elementTypeId : String
  repositionable : Bool
  deletable : Bool
  routable : Bool
  sourceElementTypeIds : List String
  targetElementTypeIds : List String
  deriving DecidableEq, Repr

/-- The `DiagramConfiguration` contract consumed by the handler and implemented by
`WorkflowDiagramConfiguration`: the type mapping, the two hint lists, and the three
scalar flags. -/
structure DiagramConfiguration where
  typeMapping : TypeMapping
  shapeTypeHints : List ShapeTypeHint
  edgeTypeHints : List EdgeTypeHint
  layoutKind : ServerLayoutKind
  needsClientLayout : Bool
  animatedUpdate : Bool
  deriving DecidableEq, Repr

/-- The handler's injected dependencies.  `createModel` is the opaque
`GModelFactory.createModel` (it may rebuild the model state); `createSchema` is the
opaque `GModelSerializer.createSchema`; `isDirty` is the `CommandStack.isDirty` query
result; `layoutEngineBound` and `validatorBound` record whether the two `@optional()`
injections are present; `validate` is the opaque validator call. -/
structure SubmissionEnv where
  diagramConfiguration : DiagramConfiguration
  createModel : ModelState → ModelState
  createSchema : GModelRootSchema → GModelRootSchema
  isDirty : Bool
  layoutEngineBound : Bool
  validatorBound : Bool
  validate : GModelRootSchema → List Marker

/-- The observable outcome of one submission method call: the returned action list, the
model state when the call returns, and the trace of framework interactions performed. -/
structure SubmissionRun where
  actions : List Action
  state : ModelState
  events : List FrameworkEvent
  deriving DecidableEq, Repr

/-- The revision bump `this.modelState.root.revision = (this.modelState.root.revision ?? 0) + 1`
performed by `submitModel`: an absent revision counts as `0`. -/
def bumpRevision (s : ModelState) : ModelState :=
  { s with root := { s.root with revision := some (s.root.revision.getD 0 + 1) } }

/-- `ModelSubmissionHandler.submitModel` (source lines 72-81): create the model, bump the
root revision, serialize; with `needsClientLayout` return
`[RequestBoundsAction, SetDirtyStateAction]`, otherwise `[SetModelAction]`.  The command
stack's `isDirty` is queried only in the first branch.  No action is dispatched and no
`await` occurs. -/
def submitModel (env : SubmissionEnv) (s : ModelState) (reason : Option DirtyStateChangeReason) :
    SubmissionRun :=
  let s1 := env.createModel s
  let s2 := bumpRevision s1
  let root := env.createSchema s2.root
  if env.diagramConfiguration.needsClientLayout then
    { actions := [.requestBounds root, .setDirtyState env.isDirty reason]
      state := s2
      events := [.createModelCall, .serializeCall, .isDirtyQuery] }
  else
    { actions := [.setModel root]
      state := s2
      events := [.createModelCall, .serializeCall] }

/-- `ModelSubmissionHandler.submitModelDirectly` (source lines 97-117): serialize the
root; `await` the layout engine exactly when `layoutKind === AUTOMATIC` and a layout
engine is bound; push `SetModelAction` when the serialized root's revision is `0`,
otherwise `UpdateModelAction` with `animate = animatedUpdate`; push `SetDirtyStateAction`
when `needsClientLayout` is false; when a validator is bound, `await` its `validate` call
and push a `SetMarkersAction` with reason `LIVE`.  The method assigns nothing to the
model state; the layout engine's and validator's own effects belong to the external
framework and are recorded as trace events. -/
def submitModelDirectly (env : SubmissionEnv) (s : ModelState)
    (reason : Option DirtyStateChangeReason) : SubmissionRun :=
  let root := env.createSchema s.root
  let layoutEvents : List FrameworkEvent :=
    if env.diagramConfiguration.layoutKind = .automatic ∧ env.layoutEngineBound then
      [.awaitLayout]
    else []
  let first : Action :=
    if root.revision = some 0 then .setModel root
    else .updateModel root env.diagramConfiguration.animatedUpdate
  let dirtyActions : List Action :=
    if !env.diagramConfiguration.needsClientLayout then
      [.setDirtyState env.isDirty reason]
    else []
  let dirtyEvents : List FrameworkEvent :=
    if !env.diagramConfiguration.needsClientLayout then [.isDirtyQuery] else []
  let markerActions : List Action :=
    if env.validatorBound then [.setMarkers (env.validate s.root) .live] else []
  let markerEvents : List FrameworkEvent :=
    if env.validatorBound then [.awaitValidate] else []
  { actions := [first] ++ dirtyActions ++ markerActions
    state := s
    events := [.serializeCall] ++ layoutEvents ++ dirtyEvents ++ markerEvents }

/-! ## Workflow diagram configuration (`src/unnamed/part_000`) -/

namespace ModelTypes

/-- Modelled from the spec: the `ModelTypes` constants are imported from
`./util/model-types`, a file of this repository not included under `src/`.  The spec
treats them as element-type identifiers (plain strings); the embedding assigns each
constant a distinct concrete string. -/
def LABEL_HEADING : String := "label:heading"

/-- Modelled from the spec: see `ModelTypes.LABEL_HEADING`. -/
def LABEL_TEXT : String := "label:text"

/-- Modelled from the spec: see `ModelTypes.LABEL_HEADING`. -/
def COMP_HEADER : String := "comp:header"

/-- Modelled from the spec: see `ModelTypes.LABEL_HEADING`. -/
def LABEL_ICON : String := "label:icon"

/-- Modelled from the spec: see `ModelTypes.LABEL_HEADING`. -/
def WEIGHTED_EDGE : String := "edge:weighted"

/-- Modelled from the spec: see `ModelTypes.LABEL_HEADING`. -/
def ICON : String := "icon"

/-- Modelled from the spec: see `ModelTypes.LABEL_HEADING`. -/
def ACTIVITY_NODE : String := "activityNode"

/-- Modelled from the spec: see `ModelTypes.LABEL_HEADING`. -/
def DECISION_NODE : String := "activityNode:decision"

/-- Modelled from the spec: see `ModelTypes.LABEL_HEADING`. -/
def MERGE_NODE : String := "activityNode:merge"

/-- Modelled from the spec: see `ModelTypes.LABEL_HEADING`. -/
def FORK_NODE : String := "activityNode:fork"

/-- Modelled from the spec: see `ModelTypes.LABEL_HEADING`. -/
def JOIN_NODE : String := "activityNode:join"

/-- Modelled from the spec: see `ModelTypes.LABEL_HEADING`. -/
def TASK : String := "task"

/-- Modelled from the spec: see `ModelTypes.LABEL_HEADING`. -/
def MANUAL_TASK : String := "task:manual"

/-- Modelled from the spec: see `ModelTypes.LABEL_HEADING`. -/
def AUTOMATED_TASK : String := "task:automated"

/-- Modelled from the spec: see `ModelTypes.LABEL_HEADING`. -/
def CATEGORY : String := "category"

/-- Modelled from the spec: see `ModelTypes.LABEL_HEADING`. -/
def STRUCTURE : String := "struct"

end ModelTypes

namespace DefaultTypes

/-- Modelled from the spec: `DefaultTypes` comes from the protocol package; the
configuration uses `DefaultTypes.EDGE` as the default edge hint's identifier. -/
def EDGE : String := "edge"

/-- Modelled from the spec: framework default graph type. -/
def GRAPH : String := "graph"

/-- Modelled from the spec: framework default node type. -/
def NODE : String := "node"

/-- Modelled from the spec: framework default port type. -/
def PORT : String := "port"

/-- Modelled from the spec: framework default label type. -/
def LABEL : String := "label"

/-- Modelled from the spec: framework default compartment type. -/
def COMPARTMENT : String := "comp"

/-- Modelled from the spec: framework default button type. -/
def BUTTON : String := "button"

end DefaultTypes

/-- Modelled from the spec: `getDefaultMapping` is imported from the server package of
this repository, whose source is not included under `src/`.  The spec's testable
properties state that "the type mapping contains an entry for every declared element
type"; the default mapping is therefore modelled as the mapping for the framework's
built-in default types together with node-constructor entries for the declared workflow
element types that the configuration getter does not set explicitly. -/
def getDefaultMapping : TypeMapping :=
  [(DefaultTypes.GRAPH, .GGraph),
   (DefaultTypes.NODE, .GNode),
   (DefaultTypes.EDGE, .GEdge),
   (DefaultTypes.PORT, .GPort),
   (DefaultTypes.LABEL, .GLabel),
   (DefaultTypes.COMPARTMENT, .GCompartment),
   (DefaultTypes.BUTTON, .GButton),
   (ModelTypes.MANUAL_TASK, .GNode),
   (ModelTypes.AUTOMATED_TASK, .GNode),
   (ModelTypes.FORK_NODE, .GNode),
   (ModelTypes.JOIN_NODE, .GNode),
   (ModelTypes.DECISION_NODE, .GNode),
   (ModelTypes.MERGE_NODE, .GNode)]

/-- The value built by the `WorkflowDiagramConfiguration.typeMapping` getter (source
lines 32-45): the default mapping with ten `Map.set` updates in source order. -/
def typeMappingValue : TypeMapping :=
  let m := getDefaultMapping
  let m := mapSet m ModelTypes.LABEL_HEADING .GLabel
  let m := mapSet m ModelTypes.LABEL_TEXT .GLabel
  let m := mapSet m ModelTypes.COMP_HEADER .GCompartment
  let m := mapSet m ModelTypes.LABEL_ICON .GLabel
  let m := mapSet m ModelTypes.WEIGHTED_EDGE .GEdge
  let m := mapSet m ModelTypes.ICON .GCompartment
  let m := mapSet m ModelTypes.ACTIVITY_NODE .ActivityNode
  let m := mapSet m ModelTypes.TASK .TaskNode
  let m := mapSet m ModelTypes.CATEGORY .Category
  let m := mapSet m ModelTypes.STRUCTURE .GCompartment
  m

/-- `createDefaultShapeTypeHint` (source lines 93-95). -/
def createDefaultShapeTypeHint (elementId : String) : ShapeTypeHint :=
  { elementTypeId := elementId
    repositionable := true
    deletable := true
    resizable := true
    reparentable := true
    containableElementTypeIds := none }

/-- The value built by the `WorkflowDiagramConfiguration.shapeTypeHints` getter (source
lines 47-72): six default hints plus the category hint with its containable list. -/
def shapeTypeHintsValue : List ShapeTypeHint :=
  [createDefaultShapeTypeHint ModelTypes.MANUAL_TASK,
   createDefaultShapeTypeHint ModelTypes.AUTOMATED_TASK,
   createDefaultShapeTypeHint ModelTypes.FORK_NODE,
   createDefaultShapeTypeHint ModelTypes.JOIN_NODE,
   createDefaultShapeTypeHint ModelTypes.DECISION_NODE,
   createDefaultShapeTypeHint ModelTypes.MERGE_NODE,
   { elementTypeId := ModelTypes.CATEGORY
     repositionable := true
     deletable := true
     resizable := true
     reparentable := true
     containableElementTypeIds := some
       [ModelTypes.DECISION_NODE,
        ModelTypes.MERGE_NODE,
        ModelTypes.FORK_NODE,
        ModelTypes.JOIN_NODE,
        ModelTypes.AUTOMATED_TASK,
        ModelTypes.MANUAL_TASK,
        ModelTypes.CATEGORY] }]

/-- `createDefaultEdgeTypeHint` (source lines 97-122). -/
def createDefaultEdgeTypeHint (elementId : String) : EdgeTypeHint :=
  { elementTypeId := elementId
    repositionable := true
    deletable := true
    routable := true
    sourceElementTypeIds :=
      [ModelTypes.MANUAL_TASK,
       ModelTypes.AUTOMATED_TASK,
       ModelTypes.DECISION_NODE,
       ModelTypes.MERGE_NODE,
       ModelTypes.FORK_NODE,
       ModelTypes.JOIN_NODE,
       ModelTypes.CATEGORY]
    targetElementTypeIds :=
      [ModelTypes.MANUAL_TASK,
       ModelTypes.AUTOMATED_TASK,
       ModelTypes.DECISION_NODE,
       ModelTypes.MERGE_NODE,
       ModelTypes.FORK_NODE,
       ModelTypes.JOIN_NODE,
       ModelTypes.CATEGORY] }

/-- The value built by the `WorkflowDiagramConfiguration.edgeTypeHints` getter (source
lines 74-86): the default edge hint plus the weighted-edge hint. -/
def edgeTypeHintsValue : List EdgeTypeHint :=
  [createDefaultEdgeTypeHint DefaultTypes.EDGE,
   { elementTypeId := ModelTypes.WEIGHTED_EDGE
     repositionable := true
     deletable := true
     routable := true
     sourceElementTypeIds := [ModelTypes.DECISION_NODE]
     targetElementTypeIds :=
       [ModelTypes.MANUAL_TASK,
        ModelTypes.AUTOMATED_TASK,
        ModelTypes.FORK_NODE,
        ModelTypes.JOIN_NODE] }]

/-- `WorkflowDiagramConfiguration` as a `DiagramConfiguration` value: the three getter
values plus `layoutKind = MANUAL`, `needsClientLayout = true`, `animatedUpdate = true`
(source lines 88-90). -/
def workflowDiagramConfiguration : DiagramConfiguration :=
  { typeMapping := typeMappingValue
    shapeTypeHints := shapeTypeHintsValue
    edgeTypeHints := edgeTypeHintsValue
    layoutKind := .manual
    needsClientLayout := true
    animatedUpdate := true }

/-! ### Object identity of the getter results

`typeMapping`, `shapeTypeHints` and `edgeTypeHints` are TypeScript `get` accessors whose
bodies evaluate `new Map(...)` (inside `getDefaultMapping`) and array literals, so every
access allocates fresh objects.  The embedding models JavaScript object identity by
tagging each getter result with the allocation counter at the time of the access: two
accesses at different counter values return objects that are *distinct references*
(different `objId`) even when structurally equal. -/

/-- A heap object: its reference identity (`objId`) and its value. -/
structure Allocated (α : Type) where
  objId : Nat
  val : α
  deriving DecidableEq, Repr

/-- Access of the `typeMapping` getter at allocation time `t`: allocates a fresh object
holding the value the getter body builds. -/
def typeMappingAccess (t : Nat) : Allocated TypeMapping :=
  { objId := t, val := typeMappingValue }

/-- Access of the `shapeTypeHints` getter at allocation time `t`. -/
def shapeTypeHintsAccess (t : Nat) : Allocated (List ShapeTypeHint) :=
  { objId := t, val := shapeTypeHintsValue }

/-- Access of the `edgeTypeHints` getter at allocation time `t`. -/
def edgeTypeHintsAccess (t : Nat) : Allocated (List EdgeTypeHint) :=
  { objId := t, val := edgeTypeHintsValue }

/-! ## Fallible embedding of the submission methods

The handler contains no `try`/`catch`: a thrown error from any framework call aborts the
method and reaches the caller unchanged.  The fallible embedding makes every framework
call an `Except String` computation; the methods are the same straight-line sequences as
above, where an `error` result of a call short-circuits the rest, exactly as a JavaScript
exception would. -/

/-- The handler's dependencies when each framework call may throw. -/
structure SubmissionEnvE where
  diagramConfiguration : DiagramConfiguration
  createModel : ModelState → Except String ModelState
  createSchema : GModelRootSchema → Except String GModelRootSchema
  isDirty : Except String Bool
  layoutEngineBound : Bool
  layout : Except String Unit
  validatorBound : Bool
  validate : GModelRootSchema → Except String (List Marker)

/-- `submitModel` with fallible framework calls: each `error` short-circuits and is
returned as is; there is no handler anywhere in the method. -/
def submitModelE (env : SubmissionEnvE) (s : ModelState)
    (reason : Option DirtyStateChangeReason) : Except String (List Action) :=
  match env.createModel s with
  | .error e => .error e
  | .ok s1 =>
    match env.createSchema (bumpRevision s1).root with
    | .error e => .error e
    | .ok root =>
      if env.diagramConfiguration.needsClientLayout then
        match env.isDirty with
        | .error e => .error e
        | .ok d => .ok [.requestBounds root, .setDirtyState d reason]
      else
        .ok [.setModel root]

/-- `submitModelDirectly` with fallible framework calls: serialization, then the
conditional layout await, then the conditional dirty-state query, then the conditional
validation await; each `error` short-circuits unchanged. -/
def submitModelDirectlyE (env : SubmissionEnvE) (s : ModelState)
    (reason : Option DirtyStateChangeReason) : Except String (List Action) :=
  match env.createSchema s.root with
  | .error e => .error e
  | .ok root =>
    match (if env.diagramConfiguration.layoutKind = .automatic ∧ env.layoutEngineBound
           then env.layout else .ok ()) with
    | .error e => .error e
    | .ok _ =>
      match (if !env.diagramConfiguration.needsClientLayout
             then Except.map (fun d => [Action.setDirtyState d reason]) env.isDirty
             else .ok []) with
      | .error e => .error e
      | .ok dirtyActions =>
        match (if env.validatorBound
               then Except.map (fun ms => [Action.setMarkers ms .live]) (env.validate s.root)
               else .ok []) with
        | .error e => .error e
        | .ok markerActions =>
          .ok ([if root.revision = some 0 then .setModel root
                else .updateModel root env.diagramConfiguration.animatedUpdate] ++
               dirtyActions ++ markerActions)

/-- Whether a fallible framework result succeeded. -/
def exceptOk {α : Type} : Except String α → Bool
  | .ok _ => true
  | .error _ => false

/-! ## Sample inputs used by the witness theorems -/

/-- A sample root with no revision yet. -/
def sampleRoot : GModelRootSchema :=
  { id := "root", gtype := "graph", revision := none }

/-- A sample model state. -/
def sampleState : ModelState :=
  { root := sampleRoot, sourceUri := none }

/-- A sample model state whose root has revision `0`. -/
def sampleStateRev0 : ModelState :=
  { root := { id := "root", gtype := "graph", revision := some 0 }, sourceUri := none }

/-- A sample model state whose root has revision `1`. -/
def sampleStateRev1 : ModelState :=
  { root := { id := "root", gtype := "graph", revision := some 1 }, sourceUri := none }

/-- A sample environment around the workflow configuration: identity factory and
serializer, no optional services bound. -/
def sampleEnv : SubmissionEnv :=
  { diagramConfiguration := workflowDiagramConfiguration
    createModel := fun s => s
    createSchema := fun root => root
    isDirty := false
    layoutEngineBound := false
    validatorBound := false
    validate := fun _ => [] }

/-- A variant environment agreeing with `sampleEnv` on `needsClientLayout` and on the
presence of validator and layout engine, but differing in dirty state and animation. -/
def sampleEnvVariant : SubmissionEnv :=
  { diagramConfiguration := { workflowDiagramConfiguration with animatedUpdate := false }
    createModel := fun s => s
    createSchema := fun root => root
    isDirty := true
    layoutEngineBound := false
    validatorBound := false
    validate := fun _ => [] }

/-- A sample environment whose layout kind is `AUTOMATIC` and whose layout engine is
bound. -/
def sampleEnvAuto : SubmissionEnv :=
  { sampleEnv with
    diagramConfiguration := { workflowDiagramConfiguration with layoutKind := .automatic }
    layoutEngineBound := true }

/-- A fallible sample environment whose dirty-state query throws. -/
def sampleEnvDirtyErrE : SubmissionEnvE :=
  { diagramConfiguration := workflowDiagramConfiguration
    createModel := fun s0 => .ok s0
    createSchema := fun root => .ok root
    isDirty := .error "commandStack failure"
    layoutEngineBound := false
    layout := .ok ()
    validatorBound := false
    validate := fun _ => .ok [] }

/-- A fallible sample environment in which every framework call succeeds. -/
def sampleEnvOkE : SubmissionEnvE :=
  { diagramConfiguration := workflowDiagramConfiguration
    createModel := fun s => .ok s
    createSchema := fun root => .ok root
    isDirty := .ok false
    layoutEngineBound := false
    layout := .ok ()
    validatorBound := false
    validate := fun _ => .ok [] }

/-! ## Claim theorems -/

/-- C1: every `submitModel` call returns, when `needsClientLayout` is set, exactly
`[RequestBoundsAction (serialized root), SetDirtyStateAction (commandStack.isDirty, reason)]`,
and otherwise exactly `[SetModelAction (serialized root)]`; and the run dispatches no
action itself (its event trace contains no dispatch). -/
theorem submitModel_action_lists (env : SubmissionEnv) (s : ModelState)
    (reason : Option DirtyStateChangeReason) :
    (env.diagramConfiguration.needsClientLayout = true →
      (submitModel env s reason).actions =
        [Action.requestBounds (env.createSchema (bumpRevision (env.createModel s)).root),
         Action.setDirtyState env.isDirty reason]) ∧
    (env.diagramConfiguration.needsClientLayout = false →
      (submitModel env s reason).actions =
        [Action.setModel (env.createSchema (bumpRevision (env.createModel s)).root)]) ∧
    (∀ a : Action, FrameworkEvent.dispatch a ∉ (submitModel env s reason).events) := by
  refine ⟨fun h => by simp [submitModel, h], fun h => by simp [submitModel, h], fun a => ?_⟩
  by_cases h : env.diagramConfiguration.needsClientLayout = true <;>
    simp [submitModel, h]

/-- Witness for C1: `submitModel` on the workflow configuration with identity
factory/serializer returns the request-bounds pair. -/
theorem submitModel_action_lists_witness :
    (submitModel sampleEnv sampleState none).actions =
      [Action.requestBounds { id := "root", gtype := "graph", revision := some 1 },
       Action.setDirtyState false none] :=
  (submitModel_action_lists sampleEnv sampleState none).1 rfl

/-- C2: `submitModelDirectly` awaits the layout engine exactly when the layout kind is
`AUTOMATIC` and a layout engine is bound, awaits the validator exactly when a validator
is bound, and performs no other awaited step; `submitModel` performs no await at all. -/
theorem submission_await_steps (env : SubmissionEnv) (s : ModelState)
    (reason : Option DirtyStateChangeReason) :
    (FrameworkEvent.awaitLayout ∈ (submitModelDirectly env s reason).events ↔
      (env.diagramConfiguration.layoutKind = ServerLayoutKind.automatic ∧
       env.layoutEngineBound = true)) ∧
    (FrameworkEvent.awaitValidate ∈ (submitModelDirectly env s reason).events ↔
      env.validatorBound = true) ∧
    (∀ e ∈ (submitModelDirectly env s reason).events,
      e.isAwait = true →
        e = FrameworkEvent.awaitLayout ∨ e = FrameworkEvent.awaitValidate) ∧
    (∀ e ∈ (submitModel env s reason).events, e.isAwait = false) := by
  cases hk : env.diagramConfiguration.layoutKind <;>
  cases hb : env.layoutEngineBound <;>
  cases hn : env.diagramConfiguration.needsClientLayout <;>
  cases hv : env.validatorBound <;>
    simp [submitModelDirectly, submitModel, hk, hb, hn, hv, FrameworkEvent.isAwait]

/-- Witness for C2: with layout kind `AUTOMATIC` and a bound layout engine, the direct
submission awaits the layout engine. -/
theorem submission_await_steps_witness :
    FrameworkEvent.awaitLayout ∈ (submitModelDirectly sampleEnvAuto sampleState none).events :=
  ((submission_await_steps sampleEnvAuto sampleState none).1).mpr ⟨rfl, rfl⟩

/-- C3 counterexample: two runs of `submitModelDirectly` under the *same* environment —
hence agreeing on `needsClientLayout` and on validator and layout-engine presence — emit
different notification kinds (`SetModelAction` vs `UpdateModelAction`), because the
serialized root's revision differs between the two model states. -/
theorem submission_kinds_depend_on_revision :
    (submitModelDirectly sampleEnv sampleStateRev0 none).actions.map Action.kind =
      [ActionKind.setModel] ∧
    (submitModelDirectly sampleEnv sampleStateRev1 none).actions.map Action.kind =
      [ActionKind.updateModel] ∧
    (submitModelDirectly sampleEnv sampleStateRev0 none).actions.map Action.kind ≠
      (submitModelDirectly sampleEnv sampleStateRev1 none).actions.map Action.kind :=
  ⟨rfl, rfl, by decide⟩

/-- C3 (amended): the sequence of notification kinds of the two submission methods is
determined by `needsClientLayout`, by validator and layout-engine presence, *and by
whether the serialized root's revision equals 0*: two runs agreeing on those four facts
emit the same kind sequences. -/
theorem submission_kinds_determined (env1 env2 : SubmissionEnv) (s1 s2 : ModelState)
    (r1 r2 : Option DirtyStateChangeReason)
    (hncl : env1.diagramConfiguration.needsClientLayout =
      env2.diagramConfiguration.needsClientLayout)
    (hval : env1.validatorBound = env2.validatorBound)
    (heng : env1.layoutEngineBound = env2.layoutEngineBound)
    (hrev : (env1.createSchema s1.root).revision = some 0 ↔
      (env2.createSchema s2.root).revision = some 0) :
    (submitModel env1 s1 r1).actions.map Action.kind =
      (submitModel env2 s2 r2).actions.map Action.kind ∧
    (submitModelDirectly env1 s1 r1).actions.map Action.kind =
      (submitModelDirectly env2 s2 r2).actions.map Action.kind := by
  constructor
  · cases hn : env1.diagramConfiguration.needsClientLayout <;>
      simp [submitModel, hn, hncl.symm.trans hn, Action.kind]
  · by_cases hr : (env1.createSchema s1.root).revision = some 0
    · have hr2 := hrev.mp hr
      cases hn : env1.diagramConfiguration.needsClientLayout <;>
      cases hv : env1.validatorBound <;>
        simp [submitModelDirectly, hr, hr2, hn, hncl.symm.trans hn, hv,
          hval.symm.trans hv, Action.kind]
    · have hr2 : ¬(env2.createSchema s2.root).revision = some 0 := fun h => hr (hrev.mpr h)
      cases hn : env1.diagramConfiguration.needsClientLayout <;>
      cases hv : env1.validatorBound <;>
        simp [submitModelDirectly, hr, hr2, hn, hncl.symm.trans hn, hv,
          hval.symm.trans hv, Action.kind]

/-- Witness for C3 (amended): two different environments and states agreeing on the four
determining facts produce the same kind sequences. -/
theorem submission_kinds_determined_witness :
    (submitModel sampleEnv sampleStateRev1 none).actions.map Action.kind =
      (submitModel sampleEnvVariant sampleState none).actions.map Action.kind ∧
    (submitModelDirectly sampleEnv sampleStateRev1 none).actions.map Action.kind =
      (submitModelDirectly sampleEnvVariant sampleState none).actions.map Action.kind :=
  submission_kinds_determined sampleEnv sampleEnvVariant sampleStateRev1 sampleState
    none none rfl rfl rfl (by decide)

/-- C4 counterexample: the configuration's getters build their results anew on every
access, so two accesses on the same instance return objects that are *not* identical
(distinct references), although they are structurally equal. -/
theorem workflow_getters_allocate_fresh_objects :
    (typeMappingAccess 0).val = (typeMappingAccess 1).val ∧
    (typeMappingAccess 0).objId ≠ (typeMappingAccess 1).objId ∧
    (shapeTypeHintsAccess 0).val = (shapeTypeHintsAccess 1).val ∧
    (shapeTypeHintsAccess 0).objId ≠ (shapeTypeHintsAccess 1).objId ∧
    (edgeTypeHintsAccess 0).val = (edgeTypeHintsAccess 1).val ∧
    (edgeTypeHintsAccess 0).objId ≠ (edgeTypeHintsAccess 1).objId :=
  ⟨rfl, by decide, rfl, by decide, rfl, by decide⟩

/-- C4 (amended): every access of `typeMapping`, `shapeTypeHints` and `edgeTypeHints`
constructs a fresh object (the object's identity is the allocation instant), but all
accesses yield structurally equal values and nothing ever mutates them after
construction. -/
theorem workflow_getters_structurally_stable (t u : Nat) :
    (typeMappingAccess t).val = (typeMappingAccess u).val ∧
    (shapeTypeHintsAccess t).val = (shapeTypeHintsAccess u).val ∧
    (edgeTypeHintsAccess t).val = (edgeTypeHintsAccess u).val ∧
    (typeMappingAccess t).objId = t ∧
    (shapeTypeHintsAccess t).objId = t ∧
    (edgeTypeHintsAccess t).objId = t :=
  ⟨rfl, rfl, rfl, rfl, rfl, rfl⟩

/-- C5: the map built by the `typeMapping` getter contains an entry for every element
type identifier declared in `shapeTypeHints` and `edgeTypeHints`. -/
theorem typeMapping_covers_declared_element_types :
    mapContains typeMappingValue ModelTypes.MANUAL_TASK = true ∧
    mapContains typeMappingValue ModelTypes.AUTOMATED_TASK = true ∧
    mapContains typeMappingValue ModelTypes.FORK_NODE = true ∧
    mapContains typeMappingValue ModelTypes.JOIN_NODE = true ∧
    mapContains typeMappingValue ModelTypes.DECISION_NODE = true ∧
    mapContains typeMappingValue ModelTypes.MERGE_NODE = true ∧
    mapContains typeMappingValue ModelTypes.CATEGORY = true ∧
    mapContains typeMappingValue DefaultTypes.EDGE = true ∧
    mapContains typeMappingValue ModelTypes.WEIGHTED_EDGE = true := by
  decide

/-- C6: the weighted-edge hint allows exactly `[DECISION_NODE]` as sources and
`[MANUAL_TASK, AUTOMATED_TASK, FORK_NODE, JOIN_NODE]` as targets; the default edge hint
allows exactly the declared seven-element list as sources and as targets. -/
theorem edgeTypeHints_allowed_source_target_lists :
    edgeTypeHintsValue.map
        (fun h => (h.elementTypeId, h.sourceElementTypeIds, h.targetElementTypeIds)) =
      [(DefaultTypes.EDGE,
        [ModelTypes.MANUAL_TASK, ModelTypes.AUTOMATED_TASK, ModelTypes.DECISION_NODE,
         ModelTypes.MERGE_NODE, ModelTypes.FORK_NODE, ModelTypes.JOIN_NODE,
         ModelTypes.CATEGORY],
        [ModelTypes.MANUAL_TASK, ModelTypes.AUTOMATED_TASK, ModelTypes.DECISION_NODE,
         ModelTypes.MERGE_NODE, ModelTypes.FORK_NODE, ModelTypes.JOIN_NODE,
         ModelTypes.CATEGORY]),
       (ModelTypes.WEIGHTED_EDGE,
        [ModelTypes.DECISION_NODE],
        [ModelTypes.MANUAL_TASK, ModelTypes.AUTOMATED_TASK, ModelTypes.FORK_NODE,
         ModelTypes.JOIN_NODE])] :=
  rfl

/-- C7: neither submission method implements error handling of its own: a method run
raises *if and only if* one of the framework calls it makes raises.  Backward direction:
a returned error is the unchanged error of one of the calls made.  Forward direction:
whenever a framework call the method makes raises (all calls preceding it on the
execution path succeeding), the method raises that very error — nothing is caught,
retried or recovered.  And when every call it makes succeeds, the run succeeds. -/
theorem submission_error_propagation (env : SubmissionEnvE) (s : ModelState)
    (reason : Option DirtyStateChangeReason) :
    (∀ e, submitModelE env s reason = Except.error e →
      env.createModel s = Except.error e ∨
      (∃ s1, env.createModel s = Except.ok s1 ∧
        env.createSchema (bumpRevision s1).root = Except.error e) ∨
      (env.diagramConfiguration.needsClientLayout = true ∧
        env.isDirty = Except.error e)) ∧
    (∀ e, submitModelDirectlyE env s reason = Except.error e →
      env.createSchema s.root = Except.error e ∨
      ((env.diagramConfiguration.layoutKind = ServerLayoutKind.automatic ∧
        env.layoutEngineBound = true) ∧ env.layout = Except.error e) ∨
      (env.diagramConfiguration.needsClientLayout = false ∧
        env.isDirty = Except.error e) ∨
      (env.validatorBound = true ∧ env.validate s.root = Except.error e)) ∧
    (∀ e, env.createModel s = Except.error e →
      submitModelE env s reason = Except.error e) ∧
    (∀ s1 e, env.createModel s = Except.ok s1 →
      env.createSchema (bumpRevision s1).root = Except.error e →
      submitModelE env s reason = Except.error e) ∧
    (∀ s1 root e, env.createModel s = Except.ok s1 →
      env.createSchema (bumpRevision s1).root = Except.ok root →
      env.diagramConfiguration.needsClientLayout = true →
      env.isDirty = Except.error e →
      submitModelE env s reason = Except.error e) ∧
    (∀ e, env.createSchema s.root = Except.error e →
      submitModelDirectlyE env s reason = Except.error e) ∧
    (∀ root e, env.createSchema s.root = Except.ok root →
      (env.diagramConfiguration.layoutKind = ServerLayoutKind.automatic ∧
        env.layoutEngineBound = true) →
      env.layout = Except.error e →
      submitModelDirectlyE env s reason = Except.error e) ∧
    (∀ root e, env.createSchema s.root = Except.ok root →
      ((env.diagramConfiguration.layoutKind = ServerLayoutKind.automatic ∧
        env.layoutEngineBound = true) → exceptOk env.layout = true) →
      env.diagramConfiguration.needsClientLayout = false →
      env.isDirty = Except.error e →
      submitModelDirectlyE env s reason = Except.error e) ∧
    (∀ root e, env.createSchema s.root = Except.ok root →
      ((env.diagramConfiguration.layoutKind = ServerLayoutKind.automatic ∧
        env.layoutEngineBound = true) → exceptOk env.layout = true) →
      (env.diagramConfiguration.needsClientLayout = false →
        exceptOk env.isDirty = true) →
      env.validatorBound = true →
      env.validate s.root = Except.error e →
      submitModelDirectlyE env s reason = Except.error e) ∧
    (∀ s1 root, env.createModel s = Except.ok s1 →
      env.createSchema (bumpRevision s1).root = Except.ok root →
      exceptOk env.isDirty = true →
      exceptOk (submitModelE env s reason) = true) ∧
    (∀ root, env.createSchema s.root = Except.ok root →
      exceptOk env.layout = true → exceptOk env.isDirty = true →
      exceptOk (env.validate s.root) = true →
      exceptOk (submitModelDirectlyE env s reason) = true) := by
  refine ⟨?_, ?_, ?_, ?_, ?_, ?_, ?_, ?_, ?_, ?_, ?_⟩
  · intro e h
    unfold submitModelE at h
    cases h1 : env.createModel s with
    | error e1 =>
      rw [h1] at h
      simp at h
      subst h
      exact Or.inl rfl
    | ok s1 =>
      rw [h1] at h
      simp only [] at h
      cases h2 : env.createSchema (bumpRevision s1).root with
      | error e2 =>
        rw [h2] at h
        simp at h
        subst h
        exact Or.inr (Or.inl ⟨s1, rfl, h2⟩)
      | ok root =>
        rw [h2] at h
        simp only [] at h
        by_cases hn : env.diagramConfiguration.needsClientLayout = true
        · rw [if_pos hn] at h
          cases h3 : env.isDirty with
          | error e3 =>
            rw [h3] at h
            simp at h
            subst h
            exact Or.inr (Or.inr ⟨hn, rfl⟩)
          | ok d =>
            rw [h3] at h
            simp at h
        · rw [if_neg hn] at h
          simp at h
  · intro e h
    unfold submitModelDirectlyE at h
    cases h1 : env.createSchema s.root with
    | error e1 =>
      rw [h1] at h
      simp at h
      subst h
      exact Or.inl rfl
    | ok root =>
      rw [h1] at h
      simp only [] at h
      by_cases hc : env.diagramConfiguration.layoutKind = ServerLayoutKind.automatic ∧
          env.layoutEngineBound = true
      · rw [if_pos hc] at h
        cases h2 : env.layout with
        | error e2 =>
          rw [h2] at h
          simp at h
          subst h
          exact Or.inr (Or.inl ⟨hc, rfl⟩)
        | ok u =>
          rw [h2] at h
          simp only [] at h
          by_cases hn : env.diagramConfiguration.needsClientLayout = true
          · rw [if_neg (by simp [hn])] at h
            simp only [] at h
            by_cases hv : env.validatorBound = true
            · rw [if_pos hv] at h
              cases h4 : env.validate s.root with
              | error e4 =>
                rw [h4] at h
                simp [Except.map] at h
                subst h
                exact Or.inr (Or.inr (Or.inr ⟨hv, rfl⟩))
              | ok ms =>
                rw [h4] at h
                simp [Except.map] at h
            · rw [if_neg hv] at h
              simp at h
          · have hnf : env.diagramConfiguration.needsClientLayout = false := by
              simpa using hn
            rw [if_pos (by simp [hnf])] at h
            cases h3 : env.isDirty with
            | error e3 =>
              rw [h3] at h
              simp [Except.map] at h
              subst h
              exact Or.inr (Or.inr (Or.inl ⟨hnf, rfl⟩))
            | ok d =>
              rw [h3] at h
              simp only [Except.map] at h
              by_cases hv : env.validatorBound = true
              · rw [if_pos hv] at h
                cases h4 : env.validate s.root with
                | error e4 =>
                  rw [h4] at h
                  simp [Except.map] at h
                  subst h
                  exact Or.inr (Or.inr (Or.inr ⟨hv, rfl⟩))
                | ok ms =>
                  rw [h4] at h
                  simp [Except.map] at h
              · rw [if_neg hv] at h
                simp at h
      · rw [if_neg hc] at h
        simp only [] at h
        by_cases hn : env.diagramConfiguration.needsClientLayout = true
        · rw [if_neg (by simp [hn])] at h
          simp only [] at h
          by_cases hv : env.validatorBound = true
          · rw [if_pos hv] at h
            cases h4 : env.validate s.root with
            | error e4 =>
              rw [h4] at h
              simp [Except.map] at h
              subst h
              exact Or.inr (Or.inr (Or.inr ⟨hv, rfl⟩))
            | ok ms =>
              rw [h4] at h
              simp [Except.map] at h
          · rw [if_neg hv] at h
            simp at h
        · have hnf : env.diagramConfiguration.needsClientLayout = false := by
            simpa using hn
          rw [if_pos (by simp [hnf])] at h
          cases h3 : env.isDirty with
          | error e3 =>
            rw [h3] at h
            simp [Except.map] at h
            subst h
            exact Or.inr (Or.inr (Or.inl ⟨hnf, rfl⟩))
          | ok d =>
            rw [h3] at h
            simp only [Except.map] at h
            by_cases hv : env.validatorBound = true
            · rw [if_pos hv] at h
              cases h4 : env.validate s.root with
              | error e4 =>
                rw [h4] at h
                simp [Except.map] at h
                subst h
                exact Or.inr (Or.inr (Or.inr ⟨hv, rfl⟩))
              | ok ms =>
                rw [h4] at h
                simp [Except.map] at h
            · rw [if_neg hv] at h
              simp at h
  · intro e h1
    simp [submitModelE, h1]
  · intro s1 e h1 h2
    simp [submitModelE, h1, h2]
  · intro s1 root e h1 h2 hn h3
    simp [submitModelE, h1, h2, hn, h3]
  · intro e h1
    simp [submitModelDirectlyE, h1]
  · intro root e h1 hc h2
    simp [submitModelDirectlyE, h1, hc, h2]
  · intro root e h1 hl hn h3
    by_cases hc : env.diagramConfiguration.layoutKind = ServerLayoutKind.automatic ∧
        env.layoutEngineBound = true
    · have hlo := hl hc
      cases h2 : env.layout with
      | error e2 =>
        rw [h2] at hlo
        simp [exceptOk] at hlo
      | ok u =>
        simp [submitModelDirectlyE, h1, hc, h2, hn, h3, Except.map]
    · simp [submitModelDirectlyE, h1, hc, hn, h3, Except.map]
  · intro root e h1 hl hd hv h4
    by_cases hc : env.diagramConfiguration.layoutKind = ServerLayoutKind.automatic ∧
        env.layoutEngineBound = true
    · have hlo := hl hc
      cases h2 : env.layout with
      | error e2 =>
        rw [h2] at hlo
        simp [exceptOk] at hlo
      | ok u =>
        by_cases hn : env.diagramConfiguration.needsClientLayout = true
        · simp [submitModelDirectlyE, h1, hc, h2, hn, hv, h4, Except.map]
        · have hnf : env.diagramConfiguration.needsClientLayout = false := by
            simpa using hn
          have hdo := hd hnf
          cases h3 : env.isDirty with
          | error e3 =>
            rw [h3] at hdo
            simp [exceptOk] at hdo
          | ok d =>
            simp [submitModelDirectlyE, h1, hc, h2, hnf, h3, hv, h4, Except.map]
    · by_cases hn : env.diagramConfiguration.needsClientLayout = true
      · simp [submitModelDirectlyE, h1, hc, hn, hv, h4, Except.map]
      · have hnf : env.diagramConfiguration.needsClientLayout = false := by
          simpa using hn
        have hdo := hd hnf
        cases h3 : env.isDirty with
        | error e3 =>
          rw [h3] at hdo
          simp [exceptOk] at hdo
        | ok d =>
          simp [submitModelDirectlyE, h1, hc, hnf, h3, hv, h4, Except.map]
  · intro s1 root h1 h2 hd
    unfold submitModelE
    simp only [h1]
    simp only [h2]
    by_cases hn : env.diagramConfiguration.needsClientLayout = true
    · rw [if_pos hn]
      cases h3 : env.isDirty with
      | error e3 =>
        rw [h3] at hd
        simp [exceptOk] at hd
      | ok d =>
        simp [h3, exceptOk]
    · rw [if_neg hn]
      simp [exceptOk]
  · intro root h1 hl hd hv
    unfold submitModelDirectlyE
    simp only [h1]
    by_cases hc : env.diagramConfiguration.layoutKind = ServerLayoutKind.automatic ∧
        env.layoutEngineBound = true
    · rw [if_pos hc]
      cases h2 : env.layout with
      | error e2 =>
        rw [h2] at hl
        simp [exceptOk] at hl
      | ok u =>
        simp only [h2]
        by_cases hn : env.diagramConfiguration.needsClientLayout = true
        · rw [if_neg (by simp [hn])]
          simp only []
          by_cases hv2 : env.validatorBound = true
          · rw [if_pos hv2]
            cases h4 : env.validate s.root with
            | error e4 =>
              rw [h4] at hv
              simp [exceptOk] at hv
            | ok ms =>
              simp [h4, Except.map, exceptOk]
          · rw [if_neg hv2]
            simp [exceptOk]
        · have hnf : env.diagramConfiguration.needsClientLayout = false := by
            simpa using hn
          rw [if_pos (by simp [hnf])]
          cases h3 : env.isDirty with
          | error e3 =>
            rw [h3] at hd
            simp [exceptOk] at hd
          | ok d =>
            simp only [h3, Except.map]
            by_cases hv2 : env.validatorBound = true
            · rw [if_pos hv2]
              cases h4 : env.validate s.root with
              | error e4 =>
                rw [h4] at hv
                simp [exceptOk] at hv
              | ok ms =>
                simp [h4, Except.map, exceptOk]
            · rw [if_neg hv2]
              simp [exceptOk]
    · rw [if_neg hc]
      simp only []
      by_cases hn : env.diagramConfiguration.needsClientLayout = true
      · rw [if_neg (by simp [hn])]
        simp only []
        by_cases hv2 : env.validatorBound = true
        · rw [if_pos hv2]
          cases h4 : env.validate s.root with
          | error e4 =>
            rw [h4] at hv
            simp [exceptOk] at hv
          | ok ms =>
            simp [h4, Except.map, exceptOk]
        · rw [if_neg hv2]
          simp [exceptOk]
      · have hnf : env.diagramConfiguration.needsClientLayout = false := by
          simpa using hn
        rw [if_pos (by simp [hnf])]
        cases h3 : env.isDirty with
        | error e3 =>
          rw [h3] at hd
          simp [exceptOk] at hd
        | ok d =>
          simp only [h3, Except.map]
          by_cases hv2 : env.validatorBound = true
          · rw [if_pos hv2]
            cases h4 : env.validate s.root with
            | error e4 =>
              rw [h4] at hv
              simp [exceptOk] at hv
            | ok ms =>
              simp [h4, Except.map, exceptOk]
          · rw [if_neg hv2]
            simp [exceptOk]

/-- Witness for C7: on an environment whose dirty-state query throws, `submitModel`
raises that very error (nothing is caught or recovered), and on an environment in which
every framework call succeeds, the run succeeds. -/
theorem submission_error_propagation_witness :
    submitModelE sampleEnvDirtyErrE sampleState none =
      Except.error "commandStack failure" ∧
    exceptOk (submitModelE sampleEnvOkE sampleState none) = true :=
  ⟨(submission_error_propagation sampleEnvDirtyErrE sampleState none).2.2.2.2.1
      sampleState (bumpRevision sampleState).root "commandStack failure" rfl rfl rfl rfl,
   (submission_error_propagation sampleEnvOkE sampleState none).2.2.2.2.2.2.2.2.2.1
      sampleState (bumpRevision sampleState).root rfl rfl rfl⟩

/-- C8: isolating the opaque model-factory call (assumed here to leave the state
unchanged, so that only the handler's own assignment is observed), `submitModel`
modifies exactly `root.revision`, setting it to one more than its previous value with an
absent revision read as 0; `submitModelDirectly` leaves every model-state field
unchanged. -/
theorem submission_state_frame (env : SubmissionEnv) (s : ModelState)
    (reason : Option DirtyStateChangeReason) (h : env.createModel s = s) :
    (submitModel env s reason).state =
      { s with root := { s.root with revision := some (s.root.revision.getD 0 + 1) } } ∧
    (submitModelDirectly env s reason).state = s := by
  constructor
  · by_cases hn : env.diagramConfiguration.needsClientLayout = true <;>
      simp [submitModel, bumpRevision, h, hn]
  · rfl

/-- Witness for C8: the frame conditions at a concrete environment whose factory call is
the identity. -/
theorem submission_state_frame_witness :
    (submitModel sampleEnv sampleState none).state =
      { sampleState with root := { sampleState.root with
          revision := some (sampleState.root.revision.getD 0 + 1) } } ∧
    (submitModelDirectly sampleEnv sampleState none).state = sampleState :=
  submission_state_frame sampleEnv sampleState none rfl

/-- C9: the `submitModelDirectly` result starts with the model-setting action —
`SetModelAction` exactly when the serialized root's revision equals 0, otherwise
`UpdateModelAction` whose animate flag is the configuration's `animatedUpdate` — and is
followed by the dirty-state action exactly when `needsClientLayout` is false, then by
the markers action with reason `LIVE` exactly when a validator is bound; the list is
never empty and has between one and three elements. -/
theorem submitModelDirectly_action_structure (env : SubmissionEnv) (s : ModelState)
    (reason : Option DirtyStateChangeReason) :
    (submitModelDirectly env s reason).actions =
      [if (env.createSchema s.root).revision = some 0 then
         Action.setModel (env.createSchema s.root)
       else
         Action.updateModel (env.createSchema s.root)
           env.diagramConfiguration.animatedUpdate] ++
      (if env.diagramConfiguration.needsClientLayout = false then
         [Action.setDirtyState env.isDirty reason]
       else []) ++
      (if env.validatorBound = true then
         [Action.setMarkers (env.validate s.root) MarkersReason.live]
       else []) ∧
    (submitModelDirectly env s reason).actions.head? =
      some (if (env.createSchema s.root).revision = some 0 then
              Action.setModel (env.createSchema s.root)
            else
              Action.updateModel (env.createSchema s.root)
                env.diagramConfiguration.animatedUpdate) ∧
    (submitModelDirectly env s reason).actions ≠ [] ∧
    1 ≤ (submitModelDirectly env s reason).actions.length ∧
    (submitModelDirectly env s reason).actions.length ≤ 3 := by
  by_cases hr : (env.createSchema s.root).revision = some 0 <;>
  cases hn : env.diagramConfiguration.needsClientLayout <;>
  cases hv : env.validatorBound <;>
    simp [submitModelDirectly, hr, hn, hv]

/-- Witness for C9: on a root already at revision 0 under the workflow configuration,
the result is the single `SetModelAction`. -/
theorem submitModelDirectly_action_structure_witness :
    (submitModelDirectly sampleEnv sampleStateRev0 none).actions =
      [Action.setModel { id := "root", gtype := "graph", revision := some 0 }] ∧
    (submitModelDirectly sampleEnv sampleStateRev0 none).actions.length ≤ 3 :=
  ⟨by simpa using (submitModelDirectly_action_structure sampleEnv sampleStateRev0 none).1,
   (submitModelDirectly_action_structure sampleEnv sampleStateRev0 none).2.2.2.2⟩

/-- C10: under the workflow configuration (`needsClientLayout = true`,
`layoutKind = MANUAL`, `animatedUpdate = true`), `submitModel` always returns the
two-action list `[RequestBoundsAction, SetDirtyStateAction]`, and `submitModelDirectly`
never awaits the layout engine and never includes a `SetDirtyStateAction`. -/
theorem workflow_submission_behavior (env : SubmissionEnv) (s : ModelState)
    (reason : Option DirtyStateChangeReason)
    (h : env.diagramConfiguration = workflowDiagramConfiguration) :
    (submitModel env s reason).actions =
      [Action.requestBounds (env.createSchema (bumpRevision (env.createModel s)).root),
       Action.setDirtyState env.isDirty reason] ∧
    FrameworkEvent.awaitLayout ∉ (submitModelDirectly env s reason).events ∧
    ActionKind.setDirtyState ∉
      (submitModelDirectly env s reason).actions.map Action.kind := by
  have hn : env.diagramConfiguration.needsClientLayout = true := by
    rw [h]
    rfl
  have hk : env.diagramConfiguration.layoutKind = ServerLayoutKind.manual := by
    rw [h]
    rfl
  refine ⟨by simp [submitModel, hn], ?_, ?_⟩
  · cases hv : env.validatorBound <;>
      simp [submitModelDirectly, hk, hn, hv]
  · by_cases hr : (env.createSchema s.root).revision = some 0 <;>
    cases hv : env.validatorBound <;>
      simp [submitModelDirectly, hn, hr, hv, Action.kind]

/-- Witness for C10: the workflow-configuration behavior at a concrete environment and
model state. -/
theorem workflow_submission_behavior_witness :
    (submitModel sampleEnv sampleStateRev1 none).actions =
      [Action.requestBounds { id := "root", gtype := "graph", revision := some 2 },
       Action.setDirtyState false none] ∧
    FrameworkEvent.awaitLayout ∉ (submitModelDirectly sampleEnv sampleStateRev1 none).events ∧
    ActionKind.setDirtyState ∉
      (submitModelDirectly sampleEnv sampleStateRev1 none).actions.map Action.kind :=
  workflow_submission_behavior sampleEnv sampleStateRev1 none rfl

end Glsp
